import Mathlib

/-!
Shallow embedding of the coherence phase driver of
`src/librustc_typeck/coherence/mod.rs`.

The embedding models:
  - `check_impl` (lines 31-50): per-impl builtin-trait guard entry point;
  - `enforce_trait_manually_implementable` (lines 52-100): the Builtin
    Trait Guard (E0322 for `Sized`, E0328 for `Unsize`, E0183 for the
    `Fn`/`FnMut`/`FnOnce` family gated on the `unboxed_closures` feature);
  - `check_impl_overlap` (lines 144-186): the per-impl overlap entry point,
    including the `impl_trait_ref(..).unwrap()`, the `references_error`
    skip, the trigger of `specialization_graph_of`, and the automatic
    trait-object conflict check (E0371);
  - `coherent_trait` (lines 117-126) and `check_coherence` (lines 128-139):
    the driver.

External collaborators (the HIR map, lang items, the feature table,
object-safety and supertrait queries, the specialization-graph builder in
`rustc::traits`, and the `unsafety`/`orphan`/`inherent_impls` modules) are
modelled as fields of the `Tcx` record, mirroring the interface the source
file consumes from `TyCtxt`.

Diagnostic-emitting calls are modelled by returning lists of `Diagnostic`
values; the driver functions return traces of `Event`s so that both the
emitted diagnostics and the side-effecting query triggers (the call to
`tcx.specialization_graph_of`, `builtin::check_trait`, `unsafety::check`,
`orphan::check` and the inherent-impl queries) are observable.  A `.unwrap()`
on a missing value is modelled by returning `none` (the panic case).
-/

/-- `DefId` of the source: a resolved definition identity. -/
abbrev DefId := Nat

/-- `ast::NodeId` of the source: an AST node identity. -/
abbrev NodeId := Nat

/-- Structural type term, as far as `check_impl_overlap` inspects it:
`Ty.err` is the error type (`references_error`), `Ty.dynamic p` is a
trait-object type `TyDynamic` whose principal trait is `p` (`none` when the
object type has no principal), and `Ty.base c` is any other type
constructor, opaque to this file. -/
inductive Ty where
  | err : Ty
  | dynamic : Option DefId → Ty
  | base : Nat → Ty
deriving DecidableEq, Repr

/-- A trait reference: the implemented trait plus its self type and the
remaining type arguments, as produced by `tcx.impl_trait_ref`. -/
structure TraitRef where
  def_id : DefId
  self_ty : Ty
  args : List Ty
deriving DecidableEq, Repr

/-- Does a type term contain the error type? -/
def Ty.referencesError : Ty → Bool
  | Ty.err => true
  | _ => false

/-- `trait_ref.references_error()`: the trait reference contains a prior
error marker somewhere in its type arguments (self type included). -/
def TraitRef.references_error (tr : TraitRef) : Bool :=
  tr.self_ty.referencesError || tr.args.any Ty.referencesError

/-- The lang-item table slots read in lines 58-91 of the source: each slot
optionally names the trait registered for it. -/
structure LangItems where
  sized_trait : Option DefId
  unsize_trait : Option DefId
  fn_trait : Option DefId
  fn_mut_trait : Option DefId
  fn_once_trait : Option DefId
deriving DecidableEq, Repr

/-- The feature table as read by the source (`tcx.features().unboxed_closures`). -/
structure Features where
  unboxed_closures : Bool
deriving DecidableEq, Repr

/-- A specialization graph as the spec describes it: a node per admitted
implementation and a set of specialization edges.  Built by the external
builder in `rustc::traits::specialize`. -/
structure Graph where
  nodes : List NodeId
  edges : List (NodeId × NodeId)
deriving DecidableEq, Repr

/-- Diagnostics emitted by the code in this file, identified by their
stable error code, the impl they point at, and the extra payload each
carries in the source (the call-trait name and the feature-suggestion help
text for E0183, the implemented trait for E0371). -/
inductive Diagnostic where
  | E0322 : DefId → Diagnostic
  | E0328 : DefId → Diagnostic
  | E0183 : DefId → String → String → Diagnostic
  | E0371 : DefId → DefId → Diagnostic
  | external : Nat → Diagnostic
deriving DecidableEq, Repr

/-- One observable step of the coherence driver: a diagnostic emission, the
trigger of the specialization-graph query for a trait, or the invocation of
one of the sibling checks the driver sequences (`builtin::check_trait`,
`unsafety::check`, `orphan::check`, and the two inherent-impl queries). -/
inductive Event where
  | diag : Diagnostic → Event
  | graphTrigger : DefId → Event
  | builtinCheckTrait : DefId → Event
  | traitSafetyCheck : Event
  | orphanCheck : Event
  | inherentImplsCheck : Event
  | inherentOverlapCheck : Event
deriving DecidableEq, Repr

/-- The slice of `TyCtxt` this file consumes.  Function-valued fields are
the external collaborators: the HIR map (`local_def_id`, `trait_impls`,
the keys of `krate().trait_impls`), type data (`impl_trait_ref`), trait
metadata (`is_object_safe`, `supertrait_def_ids` — the latter models
`traits::supertrait_def_ids`, which yields the given trait itself first and
then its transitive supertraits), configuration (`lang_items`, `features`),
the external specialization-graph builder of `rustc::traits` (a function of
the trait id and the ambient registry only — the source hands it nothing
else), and the diagnostics the sibling modules outside this file emit. -/
structure Tcx where
  local_def_id : NodeId → DefId
  impl_trait_ref : DefId → Option TraitRef
  lang_items : LangItems
  features : Features
  is_object_safe : DefId → Bool
  supertrait_def_ids : DefId → List DefId
  trait_impls : DefId → List NodeId
  krate_trait_impls : List DefId
  graph_builder : DefId → Graph × List Diagnostic
  builtin_check_trait_diags : DefId → List Diagnostic
  safetyCheckDiags : List Diagnostic
  orphan_diags : List Diagnostic
  inherent_impls_diags : List Diagnostic
  inherent_overlap_diags : List Diagnostic

/-- The help note attached to E0183 in line 98 of the source. -/
def unboxedClosuresHelp : String :=
  "add #![feature(unboxed_closures)] to the crate attributes to enable"

/-- `enforce_trait_manually_implementable` (lines 52-100): reject `Sized`
(E0322) and `Unsize` (E0328) unconditionally; then, unless the
`unboxed_closures` feature is on, reject `Fn`/`FnMut`/`FnOnce` with E0183
naming the trait and suggesting the feature; otherwise emit nothing. -/
def enforce_trait_manually_implementable (tcx : Tcx) (impl_def_id : DefId)
    (trait_def_id : DefId) : List Diagnostic :=
  let did := some trait_def_id
  let li := tcx.lang_items
  if did = li.sized_trait then [Diagnostic.E0322 impl_def_id]
  else if did = li.unsize_trait then [Diagnostic.E0328 impl_def_id]
  else if tcx.features.unboxed_closures then []
  else if did = li.fn_trait then [Diagnostic.E0183 impl_def_id "Fn" unboxedClosuresHelp]
  else if did = li.fn_mut_trait then [Diagnostic.E0183 impl_def_id "FnMut" unboxedClosuresHelp]
  else if did = li.fn_once_trait then [Diagnostic.E0183 impl_def_id "FnOnce" unboxedClosuresHelp]
  else []

/-- `check_impl` (lines 31-50): look up the impl's trait reference; inherent
impls (no trait reference) are left alone; impls whose trait reference
references an error are skipped silently; otherwise the Builtin Trait Guard
runs. -/
def check_impl (tcx : Tcx) (node_id : NodeId) : List Diagnostic :=
  let impl_def_id := tcx.local_def_id node_id
  match tcx.impl_trait_ref impl_def_id with
  | none => []
  | some trait_ref =>
    if trait_ref.references_error then []
    else enforce_trait_manually_implementable tcx impl_def_id trait_ref.def_id

/-- Lines 159-185 of `check_impl_overlap`: the automatic
`impl Trait for Trait` conflict check.  When the self type is a trait
object: a missing principal or a non-object-safe principal is ignored here
(left to wfcheck, line 164-166); otherwise, when the implemented trait
occurs among `supertrait_def_ids` of the principal, E0371 is emitted. -/
def autoTraitObjectCheck (tcx : Tcx) (impl_def_id : DefId)
    (trait_ref : TraitRef) : List Event :=
  match trait_ref.self_ty with
  | Ty.dynamic none => []
  | Ty.dynamic (some p) =>
    if tcx.is_object_safe p then
      if (tcx.supertrait_def_ids p).contains trait_ref.def_id then
        [Event.diag (Diagnostic.E0371 impl_def_id trait_ref.def_id)]
      else []
    else []
  | _ => []

/-- `check_impl_overlap` (lines 144-186): unwrap the impl's trait reference
(`none` models the panic of the `.unwrap()` at line 146); skip silently on
`references_error`; otherwise trigger `specialization_graph_of` for the
trait and run the automatic trait-object conflict check. -/
def check_impl_overlap (tcx : Tcx) (node_id : NodeId) : Option (List Event) :=
  match tcx.impl_trait_ref (tcx.local_def_id node_id) with
  | none => none
  | some trait_ref =>
    if trait_ref.references_error then some []
    else
      some (Event.graphTrigger trait_ref.def_id ::
        autoTraitObjectCheck tcx (tcx.local_def_id node_id) trait_ref)

/-- The second loop of `coherent_trait` (lines 122-124): run
`check_impl_overlap` over the trait's impl list in order; a panic in any
call aborts the whole run (`none`). -/
def runOverlapChecks (tcx : Tcx) : List NodeId → Option (List Event)
  | [] => some []
  | i :: is =>
    match check_impl_overlap tcx i, runOverlapChecks tcx is with
    | some evs, some rest => some (evs ++ rest)
    | _, _ => none

/-- `coherent_trait` (lines 117-126): over the trait's impl list, first run
`check_impl` on every impl, then `check_impl_overlap` on every impl, then
`builtin::check_trait` (external to this file, modelled by its marker event
and its diagnostics). -/
def coherent_trait (tcx : Tcx) (def_id : DefId) : Option (List Event) :=
  let impls := tcx.trait_impls def_id
  let guardEvents := ((impls.map (check_impl tcx)).flatten).map Event.diag
  match runOverlapChecks tcx impls with
  | none => none
  | some overlapEvents =>
    some (guardEvents ++ overlapEvents ++
      Event.builtinCheckTrait def_id ::
        (tcx.builtin_check_trait_diags def_id).map Event.diag)

/-- The memo table of the query engine, keyed by trait `DefId`. -/
structure QueryCache where
  graphs : List (DefId × Graph)
deriving DecidableEq, Repr

/-- Look a trait's cached graph up in the memo table. -/
def QueryCache.lookup (c : QueryCache) (d : DefId) : Option Graph :=
  (c.graphs.find? (fun p => p.fst == d)).map Prod.snd

/-- Modelled from the spec: the memoized `specialization_graph_of` query.
The query machinery (`ty::maps`) and the graph builder
(`rustc::traits::specialize`) are outside this source file; per the spec,
`build(trait_id)` is "idempotent and cacheable per trait_id" — a first call
runs the external builder (emitting its overlap diagnostics), and a
repeated call returns the memoized graph without re-emitting. -/
def specialization_graph_of (tcx : Tcx) (cache : QueryCache) (d : DefId) :
    Graph × QueryCache × List Diagnostic :=
  match cache.lookup d with
  | some g => (g, cache, [])
  | none =>
    ((tcx.graph_builder d).1,
     ⟨(d, (tcx.graph_builder d).1) :: cache.graphs⟩,
     (tcx.graph_builder d).2)

/-- The loop of `check_coherence` (lines 129-131): ensure `coherent_trait`
for every trait with local impls, in order; a panic aborts the run. -/
def runCoherentTraits (tcx : Tcx) : List DefId → Option (List Event)
  | [] => some []
  | d :: ds =>
    match coherent_trait tcx d, runCoherentTraits tcx ds with
    | some evs, some rest => some (evs ++ rest)
    | _, _ => none

/-- `check_coherence` (lines 128-139): the driver.  First the per-trait
`coherent_trait` queries, then `unsafety::check`, then `orphan::check`,
then the two inherent-impl queries, executed for their diagnostics.  The
external stages are modelled by their marker events followed by the
diagnostics they emit (fields of `Tcx`). -/
def check_coherence (tcx : Tcx) : Option (List Event) :=
  match runCoherentTraits tcx tcx.krate_trait_impls with
  | none => none
  | some evs =>
    some (evs ++
      Event.traitSafetyCheck ::
        (tcx.safetyCheckDiags.map Event.diag ++
      Event.orphanCheck ::
        (tcx.orphan_diags.map Event.diag ++
      Event.inherentImplsCheck ::
        (tcx.inherent_impls_diags.map Event.diag ++
      Event.inherentOverlapCheck ::
        tcx.inherent_overlap_diags.map Event.diag))))

/-- Modelled from the spec: the Implementation Registry invariant for one
trait — `tcx.hir.trait_impls(def_id)` (populated by HIR collection, outside
this file) lists only trait implementations, so `impl_trait_ref` is `some`
for every listed impl.  Spec: "`trait_id = None` marks an inherent
implementation" and invariant I2 keeps inherent impls in separate buckets. -/
def registryWellFormedFor (tcx : Tcx) (d : DefId) : Prop :=
  ∀ i ∈ tcx.trait_impls d, (tcx.impl_trait_ref (tcx.local_def_id i)).isSome

/-- Modelled from the spec: the registry invariant for every trait the
driver iterates. -/
def registryWellFormed (tcx : Tcx) : Prop :=
  ∀ d ∈ tcx.krate_trait_impls, registryWellFormedFor tcx d

/-- A concrete context: trait 10 is the `Sized` lang item and has one local
impl (node 0) whose self type is the trait object `dyn P` for the
object-safe trait `P = 20`, with trait 10 among `P`'s supertraits.  The
external graph builder includes the registry's single impl for trait 10
(the source passes the builder nothing but the trait id, so it has no
knowledge of the Builtin Trait Guard's verdict). -/
def tcxC1 : Tcx where
  local_def_id := fun n => n
  impl_trait_ref := fun d =>
    if d = 0 then some ⟨10, Ty.dynamic (some 20), []⟩ else none
  lang_items :=
    { sized_trait := some 10, unsize_trait := some 11, fn_trait := some 12,
      fn_mut_trait := some 13, fn_once_trait := some 14 }
  features := { unboxed_closures := false }
  is_object_safe := fun _ => true
  supertrait_def_ids := fun p => if p = 20 then [20, 10] else [p]
  trait_impls := fun d => if d = 10 then [0] else []
  krate_trait_impls := [10]
  graph_builder := fun _ => (⟨[0], []⟩, [])
  builtin_check_trait_diags := fun _ => []
  safetyCheckDiags := []
  orphan_diags := []
  inherent_impls_diags := []
  inherent_overlap_diags := []

/-- A concrete context with no lang-item collisions: trait 10 is an
ordinary trait with one impl (node 0) of `dyn P` for object-safe
`P = 20` whose supertraits include 10; impl 1 references an error; impl 2
targets `dyn Q` for a non-object-safe `Q = 21`; impl 3 targets a trait
object with no principal. -/
def tcxEx : Tcx where
  local_def_id := fun n => n
  impl_trait_ref := fun d =>
    if d = 0 then some ⟨10, Ty.dynamic (some 20), []⟩
    else if d = 1 then some ⟨10, Ty.base 7, [Ty.err]⟩
    else if d = 2 then some ⟨10, Ty.dynamic (some 21), []⟩
    else if d = 3 then some ⟨10, Ty.dynamic none, []⟩
    else none
  lang_items :=
    { sized_trait := some 100, unsize_trait := some 101, fn_trait := some 102,
      fn_mut_trait := some 103, fn_once_trait := some 104 }
  features := { unboxed_closures := false }
  is_object_safe := fun p => p != 21
  supertrait_def_ids := fun p =>
    if p = 20 then [20, 10] else if p = 21 then [21, 10] else [p]
  trait_impls := fun d => if d = 10 then [0, 1, 2, 3] else []
  krate_trait_impls := [10]
  graph_builder := fun _ => (⟨[0, 2, 3], []⟩, [])
  builtin_check_trait_diags := fun _ => []
  safetyCheckDiags := []
  orphan_diags := [Diagnostic.external 1]
  inherent_impls_diags := []
  inherent_overlap_diags := [Diagnostic.external 2]

theorem check_impl_overlap_isSome (tcx : Tcx) (i : NodeId)
    (h : (tcx.impl_trait_ref (tcx.local_def_id i)).isSome) :
    (check_impl_overlap tcx i).isSome := by
  cases hm : tcx.impl_trait_ref (tcx.local_def_id i) with
  | none => rw [hm] at h; simp at h
  | some tr =>
    simp only [check_impl_overlap, hm]
    split <;> simp

theorem runOverlapChecks_isSome (tcx : Tcx) (l : List NodeId)
    (h : ∀ i ∈ l, (tcx.impl_trait_ref (tcx.local_def_id i)).isSome) :
    (runOverlapChecks tcx l).isSome := by
  induction l with
  | nil => simp [runOverlapChecks]
  | cons i is ih =>
    have h1 := check_impl_overlap_isSome tcx i (h i (by simp))
    have h2 := ih (fun j hj => h j (by simp [hj]))
    simp only [runOverlapChecks]
    cases hc : check_impl_overlap tcx i with
    | none => rw [hc] at h1; simp at h1
    | some evs =>
      cases hr : runOverlapChecks tcx is with
      | none => rw [hr] at h2; simp at h2
      | some rest => simp

theorem coherent_trait_isSome (tcx : Tcx) (d : DefId)
    (h : registryWellFormedFor tcx d) :
    (coherent_trait tcx d).isSome := by
  have := runOverlapChecks_isSome tcx (tcx.trait_impls d) h
  simp only [coherent_trait]
  cases hr : runOverlapChecks tcx (tcx.trait_impls d) with
  | none => rw [hr] at this; simp at this
  | some evs => simp

theorem runCoherentTraits_isSome (tcx : Tcx) (l : List DefId)
    (h : ∀ d ∈ l, (coherent_trait tcx d).isSome) :
    (runCoherentTraits tcx l).isSome := by
  induction l with
  | nil => simp [runCoherentTraits]
  | cons d ds ih =>
    have h1 := h d (by simp)
    have h2 := ih (fun e he => h e (by simp [he]))
    simp only [runCoherentTraits]
    cases hc : coherent_trait tcx d with
    | none => rw [hc] at h1; simp at h1
    | some evs =>
      cases hr : runCoherentTraits tcx ds with
      | none => rw [hr] at h2; simp at h2
      | some rest => simp

theorem runCoherentTraits_mem (tcx : Tcx) (l : List DefId) (evs : List Event)
    (h : runCoherentTraits tcx l = some evs) (d : DefId) (hd : d ∈ l)
    (tevs : List Event) (ht : coherent_trait tcx d = some tevs)
    (e : Event) (he : e ∈ tevs) : e ∈ evs := by
  induction l generalizing evs with
  | nil => simp at hd
  | cons a as ih =>
    simp only [runCoherentTraits] at h
    cases hc : coherent_trait tcx a with
    | none => rw [hc] at h; simp at h
    | some aevs =>
      rw [hc] at h
      cases hr : runCoherentTraits tcx as with
      | none => rw [hr] at h; simp at h
      | some rest =>
        rw [hr] at h
        simp only [Option.some_inj] at h
        subst h
        rcases List.mem_cons.mp hd with h0 | h0
        · subst h0
          rw [hc] at ht
          simp only [Option.some_inj] at ht
          subst ht
          exact List.mem_append_left _ he
        · exact List.mem_append_right _ (ih rest hr h0)

theorem sublist_prepend {α : Type} (s : List α) {l r : List α}
    (h : List.Sublist l r) : List.Sublist l (s ++ r) := by
  induction s with
  | nil => exact h
  | cons a t ih => exact List.Sublist.cons a ih

/-- A context identical to `tcxC1` except that the `unboxed_closures`
feature is enabled. -/
def tcxC4 : Tcx := { tcxC1 with features := { unboxed_closures := true } }

/-- The driver completes and collects everything: `check_coherence` reaches
its end (`some`), the four post-graph stages appear in their fixed order in
the trace, every event of every per-trait `coherent_trait` run is in the
trace, and so are all orphan-stage and inherent-overlap-stage diagnostics. -/
def coherenceDriverRuns (tcx : Tcx) : Prop :=
  ∃ evs, check_coherence tcx = some evs ∧
    List.Sublist [Event.traitSafetyCheck, Event.orphanCheck,
      Event.inherentImplsCheck, Event.inherentOverlapCheck] evs ∧
    (∀ d ∈ tcx.krate_trait_impls, ∃ tevs,
        coherent_trait tcx d = some tevs ∧ ∀ e ∈ tevs, e ∈ evs) ∧
    (∀ dg ∈ tcx.orphan_diags, Event.diag dg ∈ evs) ∧
    (∀ dg ∈ tcx.inherent_overlap_diags, Event.diag dg ∈ evs)

/-- C1 (counterexample): in `tcxC1`, impl 0 is a manual impl of the `Sized`
lang item, so the Builtin Trait Guard rejects it (E0322) — yet the impl is
not excluded from its trait's specialization graph (the built graph's node
set still holds it, the builder being a function of the trait id alone),
and the overlap pass still processes the rejected impl: `coherent_trait`
triggers graph construction for it and even emits the overlap-family
diagnostic E0371 on the very impl the guard rejected. -/
theorem c1_rejected_impl_still_in_graph_cex :
    check_impl tcxC1 0 = [Diagnostic.E0322 0] ∧
    (specialization_graph_of tcxC1 ⟨[]⟩ 10).1.nodes = [0] ∧
    coherent_trait tcxC1 10 =
      some [Event.diag (Diagnostic.E0322 0), Event.graphTrigger 10,
            Event.diag (Diagnostic.E0371 0 10), Event.builtinCheckTrait 10] := by
  refine ⟨rfl, rfl, rfl⟩

/-- C1 (amended): a record rejected by the Builtin Trait Guard still gets
its diagnostic, but it is NOT excluded from overlap detection: the overlap
pass runs for it unchanged — it still triggers specialization-graph
construction for its trait — and `check_impl_overlap` is entirely
independent of the guard's inputs (the lang-item table and the feature
table), so the guard's verdict cannot influence it. -/
theorem c1_overlap_pass_ignores_guard_verdict (tcx : Tcx) (node_id : NodeId)
    (tr : TraitRef)
    (h1 : tcx.impl_trait_ref (tcx.local_def_id node_id) = some tr)
    (h2 : tr.references_error = false)
    (_hrejected : check_impl tcx node_id ≠ []) :
    (∃ evs, check_impl_overlap tcx node_id = some evs ∧
        Event.graphTrigger tr.def_id ∈ evs) ∧
    ∀ li fe,
      check_impl_overlap { tcx with lang_items := li, features := fe } node_id =
        check_impl_overlap tcx node_id := by
  refine ⟨⟨Event.graphTrigger tr.def_id ::
      autoTraitObjectCheck tcx (tcx.local_def_id node_id) tr, ?_, ?_⟩,
    fun li fe => rfl⟩
  · simp [check_impl_overlap, h1, h2]
  · exact List.mem_cons_self _ _

/-- C1 witness: the amended statement instantiated at `tcxC1`'s rejected
`Sized` impl. -/
theorem c1_overlap_pass_ignores_guard_verdict_witness :
    check_impl tcxC1 0 ≠ [] ∧
    ((∃ evs, check_impl_overlap tcxC1 0 = some evs ∧
        Event.graphTrigger 10 ∈ evs) ∧
     ∀ li fe,
       check_impl_overlap { tcxC1 with lang_items := li, features := fe } 0 =
         check_impl_overlap tcxC1 0) :=
  ⟨by decide,
   c1_overlap_pass_ignores_guard_verdict tcxC1 0 ⟨10, Ty.dynamic (some 20), []⟩
     rfl rfl (by decide)⟩

/-- C2: for a user-written impl of trait T for a trait-object type `dyn P`
with an object-safe principal P such that T occurs among P's supertraits
(reflexively or transitively — `supertrait_def_ids` yields P itself first),
`check_impl_overlap` emits exactly the automatic-trait-object-conflict
diagnostic E0371 after triggering the graph build — in particular no
ordinary overlap diagnostic is produced by this check. -/
theorem c2_supertrait_object_impl_emits_e0371 (tcx : Tcx) (node_id : NodeId)
    (tr : TraitRef) (p : DefId)
    (h1 : tcx.impl_trait_ref (tcx.local_def_id node_id) = some tr)
    (h2 : tr.references_error = false)
    (h3 : tr.self_ty = Ty.dynamic (some p))
    (h4 : tcx.is_object_safe p = true)
    (h5 : (tcx.supertrait_def_ids p).contains tr.def_id = true) :
    check_impl_overlap tcx node_id =
      some [Event.graphTrigger tr.def_id,
            Event.diag (Diagnostic.E0371 (tcx.local_def_id node_id) tr.def_id)] := by
  simp [check_impl_overlap, h1, h2, autoTraitObjectCheck, h3, h4, h5]
  exact List.mem_of_elem_eq_true h5

/-- C2 witness: in `tcxEx`, impl 0 implements trait 10 for `dyn 20`, trait
20 is object-safe and its supertraits are `[20, 10]`. -/
theorem c2_supertrait_object_impl_emits_e0371_witness :
    tcxEx.impl_trait_ref 0 = some ⟨10, Ty.dynamic (some 20), []⟩ ∧
    (tcxEx.supertrait_def_ids 20).contains 10 = true ∧
    check_impl_overlap tcxEx 0 =
      some [Event.graphTrigger 10, Event.diag (Diagnostic.E0371 0 10)] :=
  ⟨rfl, rfl,
   c2_supertrait_object_impl_emits_e0371 tcxEx 0 ⟨10, Ty.dynamic (some 20), []⟩ 20
     rfl rfl rfl rfl rfl⟩

/-- C3: the Builtin Trait Guard rejects a manual impl of the `Sized` lang
item with E0322, and one of the `Unsize` lang item with E0328, for every
context — in particular for every feature configuration, since the
`unboxed_closures` test only comes after these two unconditional checks. -/
theorem c3_sized_unsize_rejected_unconditionally (tcx : Tcx)
    (impl_def_id trait_def_id : DefId) :
    (some trait_def_id = tcx.lang_items.sized_trait →
      enforce_trait_manually_implementable tcx impl_def_id trait_def_id =
        [Diagnostic.E0322 impl_def_id]) ∧
    (some trait_def_id ≠ tcx.lang_items.sized_trait →
     some trait_def_id = tcx.lang_items.unsize_trait →
      enforce_trait_manually_implementable tcx impl_def_id trait_def_id =
        [Diagnostic.E0328 impl_def_id]) := by
  constructor
  · intro h
    simp only [enforce_trait_manually_implementable]
    rw [if_pos h]
  · intro h1 h2
    simp only [enforce_trait_manually_implementable]
    rw [if_neg h1, if_pos h2]

/-- C3 witness: in `tcxC1` (feature off) and `tcxC4` (feature on), trait 10
is `Sized` and trait 11 is `Unsize`; both are rejected in both contexts. -/
theorem c3_sized_unsize_rejected_unconditionally_witness :
    enforce_trait_manually_implementable tcxC1 0 10 = [Diagnostic.E0322 0] ∧
    enforce_trait_manually_implementable tcxC4 0 10 = [Diagnostic.E0322 0] ∧
    enforce_trait_manually_implementable tcxC1 0 11 = [Diagnostic.E0328 0] ∧
    enforce_trait_manually_implementable tcxC4 0 11 = [Diagnostic.E0328 0] :=
  ⟨(c3_sized_unsize_rejected_unconditionally tcxC1 0 10).1 rfl,
   (c3_sized_unsize_rejected_unconditionally tcxC4 0 10).1 rfl,
   (c3_sized_unsize_rejected_unconditionally tcxC1 0 11).2 (by decide) rfl,
   (c3_sized_unsize_rejected_unconditionally tcxC4 0 11).2 (by decide) rfl⟩

/-- C4: for a manual impl of one of the three call-family lang items (and
a trait that is neither `Sized` nor `Unsize`), the guard emits nothing when
the `unboxed_closures` feature is on, and otherwise emits E0183 naming the
implemented variant (`Fn`, `FnMut` or `FnOnce` — following the source's
test order) and carrying the help text that suggests the enabling flag. -/
theorem c4_fn_traits_gated_on_unboxed_closures (tcx : Tcx)
    (impl_def_id trait_def_id : DefId)
    (hs : some trait_def_id ≠ tcx.lang_items.sized_trait)
    (hu : some trait_def_id ≠ tcx.lang_items.unsize_trait) :
    (some trait_def_id = tcx.lang_items.fn_trait →
      enforce_trait_manually_implementable tcx impl_def_id trait_def_id =
        if tcx.features.unboxed_closures then []
        else [Diagnostic.E0183 impl_def_id "Fn" unboxedClosuresHelp]) ∧
    (some trait_def_id ≠ tcx.lang_items.fn_trait →
     some trait_def_id = tcx.lang_items.fn_mut_trait →
      enforce_trait_manually_implementable tcx impl_def_id trait_def_id =
        if tcx.features.unboxed_closures then []
        else [Diagnostic.E0183 impl_def_id "FnMut" unboxedClosuresHelp]) ∧
    (some trait_def_id ≠ tcx.lang_items.fn_trait →
     some trait_def_id ≠ tcx.lang_items.fn_mut_trait →
     some trait_def_id = tcx.lang_items.fn_once_trait →
      enforce_trait_manually_implementable tcx impl_def_id trait_def_id =
        if tcx.features.unboxed_closures then []
        else [Diagnostic.E0183 impl_def_id "FnOnce" unboxedClosuresHelp]) := by
  refine ⟨?_, ?_, ?_⟩
  · intro h
    simp only [enforce_trait_manually_implementable]
    rw [if_neg hs, if_neg hu]
    cases hf : tcx.features.unboxed_closures with
    | true => simp
    | false =>
      simp only [Bool.false_eq_true, if_false]
      rw [if_pos h]
  · intro h1 h2
    simp only [enforce_trait_manually_implementable]
    rw [if_neg hs, if_neg hu]
    cases hf : tcx.features.unboxed_closures with
    | true => simp
    | false =>
      simp only [Bool.false_eq_true, if_false]
      rw [if_neg h1, if_pos h2]
  · intro h1 h2 h3
    simp only [enforce_trait_manually_implementable]
    rw [if_neg hs, if_neg hu]
    cases hf : tcx.features.unboxed_closures with
    | true => simp
    | false =>
      simp only [Bool.false_eq_true, if_false]
      rw [if_neg h1, if_neg h2, if_pos h3]

/-- C4 witness: trait 12 is `Fn`, 13 is `FnMut`, 14 is `FnOnce` in
`tcxC1`/`tcxC4`; with the feature off each is rejected with E0183 naming its
variant and the help text, with the feature on each is allowed silently. -/
theorem c4_fn_traits_gated_on_unboxed_closures_witness :
    enforce_trait_manually_implementable tcxC1 0 12 =
      [Diagnostic.E0183 0 "Fn" unboxedClosuresHelp] ∧
    enforce_trait_manually_implementable tcxC1 0 13 =
      [Diagnostic.E0183 0 "FnMut" unboxedClosuresHelp] ∧
    enforce_trait_manually_implementable tcxC1 0 14 =
      [Diagnostic.E0183 0 "FnOnce" unboxedClosuresHelp] ∧
    enforce_trait_manually_implementable tcxC4 0 12 = [] :=
  ⟨(c4_fn_traits_gated_on_unboxed_closures tcxC1 0 12 (by decide) (by decide)).1
     rfl,
   (c4_fn_traits_gated_on_unboxed_closures tcxC1 0 13 (by decide) (by decide)).2.1
     (by decide) rfl,
   (c4_fn_traits_gated_on_unboxed_closures tcxC1 0 14 (by decide) (by decide)).2.2
     (by decide) (by decide) rfl,
   (c4_fn_traits_gated_on_unboxed_closures tcxC4 0 12 (by decide) (by decide)).1
     rfl⟩

/-- C5: an impl whose trait reference carries a prior error marker is
skipped silently by both entry points: the builtin-guard pass emits nothing
and the overlap pass returns an empty trace — no diagnostic and no trigger
of specialization-graph construction. -/
theorem c5_error_marked_impl_skipped_silently (tcx : Tcx) (node_id : NodeId)
    (tr : TraitRef)
    (h1 : tcx.impl_trait_ref (tcx.local_def_id node_id) = some tr)
    (h2 : tr.references_error = true) :
    check_impl tcx node_id = [] ∧ check_impl_overlap tcx node_id = some [] := by
  constructor
  · simp [check_impl, h1, h2]
  · simp [check_impl_overlap, h1, h2]

/-- C5 witness: impl 1 of `tcxEx` has the error type among its trait
reference's arguments. -/
theorem c5_error_marked_impl_skipped_silently_witness :
    (TraitRef.references_error ⟨10, Ty.base 7, [Ty.err]⟩) = true ∧
    check_impl tcxEx 1 = [] ∧ check_impl_overlap tcxEx 1 = some [] :=
  ⟨rfl,
   c5_error_marked_impl_skipped_silently tcxEx 1 ⟨10, Ty.base 7, [Ty.err]⟩
     rfl rfl⟩

/-- C6: a user-written impl of T for `dyn P` with a non-object-safe
principal P never receives E0371 from this check, even when T is among P's
supertraits: the overlap pass only triggers the graph build and emits
nothing (the case is left to wfcheck). -/
theorem c6_non_object_safe_principal_ignored (tcx : Tcx) (node_id : NodeId)
    (tr : TraitRef) (p : DefId)
    (h1 : tcx.impl_trait_ref (tcx.local_def_id node_id) = some tr)
    (h2 : tr.references_error = false)
    (h3 : tr.self_ty = Ty.dynamic (some p))
    (h4 : tcx.is_object_safe p = false) :
    check_impl_overlap tcx node_id = some [Event.graphTrigger tr.def_id] := by
  simp [check_impl_overlap, h1, h2, autoTraitObjectCheck, h3, h4]

/-- C6 witness: impl 2 of `tcxEx` implements trait 10 for `dyn 21`; trait 21
is not object-safe even though trait 10 is among its supertraits, and no
diagnostic is emitted. -/
theorem c6_non_object_safe_principal_ignored_witness :
    tcxEx.is_object_safe 21 = false ∧
    (tcxEx.supertrait_def_ids 21).contains 10 = true ∧
    check_impl_overlap tcxEx 2 = some [Event.graphTrigger 10] :=
  ⟨rfl, rfl,
   c6_non_object_safe_principal_ignored tcxEx 2 ⟨10, Ty.dynamic (some 21), []⟩ 21
     rfl rfl rfl rfl⟩

/-- C7: the coherence driver is one pass in fixed order.  Under the
registry invariant, `check_coherence` runs to completion (`some`), its
trace carries the per-trait graph-building stage first and then the four
remaining stages in the source's fixed order, and the result is the union
of everything collected: every event of every per-trait run and every
diagnostic of the orphan and inherent-overlap stages appears in the final
trace — no stage failure aborts the pass. -/
theorem c7_driver_single_pass_reaches_done (tcx : Tcx)
    (h : registryWellFormed tcx) : coherenceDriverRuns tcx := by
  have hs : ∀ d ∈ tcx.krate_trait_impls, (coherent_trait tcx d).isSome :=
    fun d hd => coherent_trait_isSome tcx d (h d hd)
  have hr := runCoherentTraits_isSome tcx tcx.krate_trait_impls hs
  cases hrc : runCoherentTraits tcx tcx.krate_trait_impls with
  | none => rw [hrc] at hr; simp at hr
  | some evs0 =>
    refine ⟨evs0 ++
      Event.traitSafetyCheck ::
        (tcx.safetyCheckDiags.map Event.diag ++
      Event.orphanCheck ::
        (tcx.orphan_diags.map Event.diag ++
      Event.inherentImplsCheck ::
        (tcx.inherent_impls_diags.map Event.diag ++
      Event.inherentOverlapCheck ::
        tcx.inherent_overlap_diags.map Event.diag))), ?_, ?_, ?_, ?_, ?_⟩
    · simp [check_coherence, hrc]
    · apply sublist_prepend evs0
      apply List.Sublist.cons₂
      apply sublist_prepend
      apply List.Sublist.cons₂
      apply sublist_prepend
      apply List.Sublist.cons₂
      apply sublist_prepend
      apply List.Sublist.cons₂
      exact List.nil_sublist _
    · intro d hd
      have hd2 := hs d hd
      cases ht : coherent_trait tcx d with
      | none => rw [ht] at hd2; simp at hd2
      | some tevs =>
        exact ⟨tevs, rfl, fun e he => List.mem_append_left _
          (runCoherentTraits_mem tcx _ evs0 hrc d hd tevs ht e he)⟩
    · intro dg hdg
      apply List.mem_append_right
      apply List.mem_cons_of_mem
      apply List.mem_append_right
      apply List.mem_cons_of_mem
      apply List.mem_append_left
      exact List.mem_map_of_mem Event.diag hdg
    · intro dg hdg
      apply List.mem_append_right
      apply List.mem_cons_of_mem
      apply List.mem_append_right
      apply List.mem_cons_of_mem
      apply List.mem_append_right
      apply List.mem_cons_of_mem
      apply List.mem_append_right
      apply List.mem_cons_of_mem
      exact List.mem_map_of_mem Event.diag hdg

/-- C7 witness: the driver conclusion instantiated at `tcxEx`, whose
registry is well formed. -/
theorem c7_driver_single_pass_reaches_done_witness :
    coherenceDriverRuns tcxEx :=
  c7_driver_single_pass_reaches_done tcxEx
    (by unfold registryWellFormed registryWellFormedFor; decide)

theorem lookup_cons_self (g : Graph) (graphs : List (DefId × Graph)) (d : DefId) :
    QueryCache.lookup ⟨(d, g) :: graphs⟩ d = some g := by
  simp [QueryCache.lookup, List.find?]

/-- C8: the memoized specialization-graph query is idempotent — a repeated
call for the same trait with unchanged registry contents returns a graph
with identical node and edge sets (indeed the same graph) and re-emits no
diagnostics. -/
theorem c8_specialization_graph_build_idempotent (tcx : Tcx)
    (cache : QueryCache) (d : DefId) :
    (specialization_graph_of tcx
        (specialization_graph_of tcx cache d).2.1 d).1.nodes =
      (specialization_graph_of tcx cache d).1.nodes ∧
    (specialization_graph_of tcx
        (specialization_graph_of tcx cache d).2.1 d).1.edges =
      (specialization_graph_of tcx cache d).1.edges ∧
    (specialization_graph_of tcx
        (specialization_graph_of tcx cache d).2.1 d).2.2 = [] := by
  cases hl : cache.lookup d with
  | some g => simp [specialization_graph_of, hl]
  | none => simp [specialization_graph_of, hl, lookup_cons_self]

/-- C9: every impl id taken from the per-trait impl list has a trait
reference (`impl_trait_ref` is `some`), so the `.unwrap()` inside
`check_impl_overlap` never panics (`none` is never returned) and the whole
per-trait run completes. -/
theorem c9_impl_trait_ref_unwrap_never_panics (tcx : Tcx) (d : DefId)
    (h : registryWellFormedFor tcx d) :
    (∀ i ∈ tcx.trait_impls d, (check_impl_overlap tcx i).isSome) ∧
    (coherent_trait tcx d).isSome :=
  ⟨fun i hi => check_impl_overlap_isSome tcx i (h i hi),
   coherent_trait_isSome tcx d h⟩

/-- C9 witness: instantiated at `tcxEx`'s trait 10 and its four impls. -/
theorem c9_impl_trait_ref_unwrap_never_panics_witness :
    (∀ i ∈ tcxEx.trait_impls 10, (check_impl_overlap tcxEx i).isSome) ∧
    (coherent_trait tcxEx 10).isSome :=
  c9_impl_trait_ref_unwrap_never_panics tcxEx 10
    (by unfold registryWellFormedFor; decide)

/-- C10: a user-written impl whose self type is a trait object with no
principal trait gets no diagnostic from the automatic-trait-object check:
the `map_or(true, ..)` default makes the missing-principal case take the
same silent branch as a non-object-safe principal, so the overlap pass only
triggers the graph build. -/
theorem c10_missing_principal_ignored (tcx : Tcx) (node_id : NodeId)
    (tr : TraitRef)
    (h1 : tcx.impl_trait_ref (tcx.local_def_id node_id) = some tr)
    (h2 : tr.references_error = false)
    (h3 : tr.self_ty = Ty.dynamic none) :
    check_impl_overlap tcx node_id = some [Event.graphTrigger tr.def_id] := by
  simp [check_impl_overlap, h1, h2, autoTraitObjectCheck, h3]

/-- C10 witness: impl 3 of `tcxEx` targets a trait object without a
principal. -/
theorem c10_missing_principal_ignored_witness :
    tcxEx.impl_trait_ref 3 = some ⟨10, Ty.dynamic none, []⟩ ∧
    check_impl_overlap tcxEx 3 = some [Event.graphTrigger 10] :=
  ⟨rfl,
   c10_missing_principal_ignored tcxEx 3 ⟨10, Ty.dynamic none, []⟩ rfl rfl rfl⟩
